import Mathlib

/-!
Shallow embedding of the elitedias_price_log synchronization engine.

Source files embedded here:
  * `src/app/shared/decorators.py`  — `retry_on_fail`
  * `src/app/shared/cache_store.py` — `CacheData`, key/value store semantics
  * `src/app/shared/utils.py`       — `split_list`
  * `src/app/elitedias/models.py`   — response models
  * `src/app/elitedias/api.py`      — `get_denominations`, `get_elitedias_game_fields`
  * `src/app/sheet/models.py`       — `RowModel`, `batch_get`, note-message batch writes
  * `src/app/processes.py`          — `find_cell_to_update`, `batch_update_price`,
                                      `batch_process`, `get_game_dict`

Time is modelled as integers (one unit per second where a unit matters),
fallible calls as `Except`, and external I/O (HTTP, the spreadsheet
service, cache files) as explicit function arguments and returned
effect descriptions (call counts, sleep amounts, write batches).
-/

namespace PriceLog

/-! ### `shared/decorators.py` — retry_on_fail

The Python decorator runs `func` for `i in range(max_retries + 1)`;
on success it returns, on exception it re-raises if `i == max_retries`
and otherwise logs, sleeps `sleep_interval`, and retries.  The wrapped
operation is modelled as a function from the attempt number (0-based)
to an `Except` outcome; the trace records the result, the number of
invocations and the list of sleeps performed between attempts. -/

structure RetryTrace (E A : Type) where
  result : Except E A
  invocations : Nat
  delays : List Nat
  deriving Repr

/-- One pass of the Python `for i in range(max_retries + 1)` loop:
`i` is the current attempt index and `remaining` the number of loop
iterations still to come after this one. -/
def retryGo (f : Nat → Except E A) (sleep_interval : Nat) :
    Nat → Nat → RetryTrace E A
  | i, 0 =>
    match f i with
    | .ok a => ⟨.ok a, 1, []⟩
    | .error e => ⟨.error e, 1, []⟩
  | i, r + 1 =>
    match f i with
    | .ok a => ⟨.ok a, 1, []⟩
    | .error _ =>
      ⟨(retryGo f sleep_interval (i + 1) r).result,
       (retryGo f sleep_interval (i + 1) r).invocations + 1,
       sleep_interval :: (retryGo f sleep_interval (i + 1) r).delays⟩

/-- `retry_on_fail(max_retries, sleep_interval)` applied to `f`. -/
def retry_on_fail (max_retries : Nat) (sleep_interval : Nat)
    (f : Nat → Except E A) : RetryTrace E A :=
  retryGo f sleep_interval 0 max_retries

/-! ### `shared/cache_store.py` — CacheData -/

/-- `timedelta(days=7)`, the pydantic default of `CacheData.valid`,
in seconds. -/
def sevenDays : Int := 7 * 24 * 60 * 60

/-- `CacheData` from `cache_store.py`: `date` is the write timestamp,
`valid` the time-to-live (default seven days), `data` the payload. -/
structure CacheData (U : Type) where
  date : Int
  valid : Int := sevenDays
  data : U
  deriving Repr, DecidableEq

/-- `CacheData.is_valid`: `datetime.now() - self.date < self.valid`. -/
def CacheData.is_valid (c : CacheData U) (now : Int) : Bool :=
  now - c.date < c.valid

/-! ### `shared/utils.py` — split_list -/

/-- `split_list(lst, chunk_size)`:
`[lst[i : i + chunk_size] for i in range(0, len(lst), chunk_size)]`. -/
def split_list.go (chunk_size : Nat) (hc : 0 < chunk_size) :
    List α → List (List α)
  | [] => []
  | x :: xs =>
    (x :: xs).take chunk_size :: split_list.go chunk_size hc
      ((x :: xs).drop chunk_size)
  termination_by l => l.length
  decreasing_by
    simp only [List.length_drop, List.length_cons]
    omega

def split_list (lst : List α) (chunk_size : Nat) : List (List α) :=
  if hc : 0 < chunk_size then split_list.go chunk_size hc lst else []

/-! ### Association-list helpers (Python `dict` semantics)

Python dictionaries preserve insertion order; assignment overwrites in
place.  `lookupKV` is `d.get(k)` / `k in d`; `setKV` is `d[k] = v`. -/

def lookupKV (m : List (String × β)) (k : String) : Option β :=
  match m with
  | [] => none
  | (k', v) :: rest => if k' = k then some v else lookupKV rest k

def setKV (m : List (String × β)) (k : String) (v : β) :
    List (String × β) :=
  match m with
  | [] => [(k, v)]
  | (k', v') :: rest =>
    if k' = k then (k, v) :: rest else (k', v') :: setKV rest k v

/-! ### `elitedias/api.py` — error taxonomy and the three operations

`httpx` raises `HTTPStatusError` from `raise_for_status()` on a non-2xx
response, and `TimeoutException` (a different subclass of `HTTPError`,
not of `HTTPStatusError`) when the 60-unit timeout fires. -/

inductive HttpError where
  | statusError (status : Nat)
  | timeout
  deriving Repr, DecidableEq

/-- `ElitediasGameFieldsInfo` from `elitedias/models.py`. -/
structure ElitediasGameFieldsInfo where
  fields : List String
  notes : String
  deriving Repr, DecidableEq

/-- `ElitediasGameFields` from `elitedias/models.py`. -/
structure ElitediasGameFields where
  code : String
  info : ElitediasGameFieldsInfo
  deriving Repr, DecidableEq

/-- Outcome of `ElitediasAPIClient.get_denominations`: the returned
payload, the denominations cache record stored under the game key after
the call, and how many upstream HTTP requests were made. -/
structure DenomFetchResult (D : Type) where
  data : D
  newStore : Option (CacheData D)
  upstreamCalls : Nat
  deriving Repr

/-- `ElitediasAPIClient.get_denominations(game)` for a single game key:
`store` is the cache record currently saved under that key, `upstream`
the outcome the vendor would produce if called, `now` the current time
and `cacheValid` the configured `CACHE_VALID` duration.  The code
returns the cached payload when the record exists and is valid;
otherwise it calls upstream, and on success stores a fresh record
`{date: now, valid: cacheValid, data: response}`. -/
def get_denominations (now cacheValid : Int)
    (store : Option (CacheData D)) (upstream : Except HttpError D) :
    Except HttpError (DenomFetchResult D) :=
  match store with
  | some c =>
    if c.is_valid now then .ok ⟨c.data, some c, 0⟩
    else
      match upstream with
      | .error e => .error e
      | .ok d => .ok ⟨d, some ⟨now, cacheValid, d⟩, 1⟩
  | none =>
    match upstream with
    | .error e => .error e
    | .ok d => .ok ⟨d, some ⟨now, cacheValid, d⟩, 1⟩

/-- Outcome of `ElitediasAPIClient.get_elitedias_game_fields`: the
returned model, the `game_notes.json` contents after the call, the
number of upstream HTTP requests, and the total `asyncio.sleep` time
imposed after the call. -/
structure FieldsFetchResult where
  response : ElitediasGameFields
  newCache : List (String × String)
  upstreamCalls : Nat
  delay : Nat
  deriving Repr, DecidableEq

/-- `ElitediasAPIClient.get_elitedias_game_fields(game)`: `cache` is the
parsed `game_notes.json` mapping game → notes.  On a hit the code
returns `ElitediasGameFields(code="200", info=(fields=[], notes=cached))`
immediately; on a miss it calls upstream, sleeps 10 units after a
successful response, writes the notes back into `game_notes.json`, and
returns the upstream model. -/
def get_elitedias_game_fields (cache : List (String × String))
    (game : String) (upstream : Except HttpError ElitediasGameFields) :
    Except HttpError FieldsFetchResult :=
  match lookupKV cache game with
  | some notes => .ok ⟨⟨"200", ⟨[], notes⟩⟩, cache, 0, 0⟩
  | none =>
    match upstream with
    | .error e => .error e
    | .ok m => .ok ⟨m, setKV cache game m.info.notes, 1, 10⟩

/-! ### `processes.py` — get_game_dict denomination loop

For each game the loop calls `get_denominations` inside
`try: ... except HTTPStatusError: denominations.append({})`.  Only the
non-2xx branch is caught; a `TimeoutException` is not an
`HTTPStatusError` and propagates, aborting the cycle. -/

/-- One iteration of the denomination loop of `get_game_dict`:
downgrades a caught `HTTPStatusError` to the empty dict, re-raises
anything else. -/
def denom_loop_step (fetch : String → Except HttpError D) (emptyD : D)
    (game : String) : Except HttpError D :=
  match fetch game with
  | .ok d => .ok d
  | .error (.statusError _) => .ok emptyD
  | .error .timeout => .error .timeout

/-- The full denomination loop of `get_game_dict` over the games list:
stops at the first uncaught exception, otherwise collects one
denomination dict per game in order. -/
def get_game_dict_denoms (fetch : String → Except HttpError D)
    (emptyD : D) : List String → Except HttpError (List D)
  | [] => .ok []
  | g :: gs =>
    match denom_loop_step fetch emptyD g with
    | .error e => .error e
    | .ok d =>
      match get_game_dict_denoms fetch emptyD gs with
      | .error e => .error e
      | .ok ds => .ok (d :: ds)

/-- Python `str.strip()`: drop whitespace from both ends.  (Defined
over the character list so that concrete instances compute by
kernel reduction.) -/
def pyStrip (s : String) : String :=
  String.mk
    (((s.data.dropWhile Char.isWhitespace).reverse.dropWhile
      Char.isWhitespace).reverse)

/-! ### `sheet/models.py` — RowModel and its column mapping

`RowModel` maps fields to columns B..P via `Annotated` metadata.
Required string fields: `CHECK` (B), `GAME_NAME` (E), `DENOMINATION`
(F); everything else is `str | None` with default `None`.  Updatable
fields: `PRICE` (G), `GAME_NOTE` (H), `CURRENCY` (I), `NOTE` (J); the
note sink is `NOTE` (column J). -/

structure RowModel where
  sheet_id : String
  sheet_name : String
  index : Nat
  CHECK : String
  PRODUCT_NAME : Option String := none
  PACK : Option String := none
  GAME_NAME : String
  DENOMINATION : String
  PRICE : Option String := none
  GAME_NOTE : Option String := none
  CURRENCY : Option String := none
  NOTE : Option String := none
  FILL_IN : Option String := none
  ID_SHEET : Option String := none
  SHEET : Option String := none
  COL_NOTE : Option String := none
  CODE : Option String := none
  COL_CODE : Option String := none
  deriving Repr, DecidableEq

/-- The raw cell contents fetched for one row index, one entry per
mapped column (a blank cell comes back as `none` from
`query_results[count].first()`). -/
structure RawRow where
  CHECK : Option String := none
  PRODUCT_NAME : Option String := none
  PACK : Option String := none
  GAME_NAME : Option String := none
  DENOMINATION : Option String := none
  PRICE : Option String := none
  GAME_NOTE : Option String := none
  CURRENCY : Option String := none
  NOTE : Option String := none
  FILL_IN : Option String := none
  ID_SHEET : Option String := none
  SHEET : Option String := none
  COL_NOTE : Option String := none
  CODE : Option String := none
  COL_CODE : Option String := none
  deriving Repr, DecidableEq

/-- String values are stripped before validation
(`model_dict[k] = model_dict[k].strip()`). -/
def stripRaw (r : RawRow) : RawRow where
  CHECK := r.CHECK.map pyStrip
  PRODUCT_NAME := r.PRODUCT_NAME.map pyStrip
  PACK := r.PACK.map pyStrip
  GAME_NAME := r.GAME_NAME.map pyStrip
  DENOMINATION := r.DENOMINATION.map pyStrip
  PRICE := r.PRICE.map pyStrip
  GAME_NOTE := r.GAME_NOTE.map pyStrip
  CURRENCY := r.CURRENCY.map pyStrip
  NOTE := r.NOTE.map pyStrip
  FILL_IN := r.FILL_IN.map pyStrip
  ID_SHEET := r.ID_SHEET.map pyStrip
  SHEET := r.SHEET.map pyStrip
  COL_NOTE := r.COL_NOTE.map pyStrip
  CODE := r.CODE.map pyStrip
  COL_CODE := r.COL_CODE.map pyStrip

/-- `cls.model_validate(model_dict)` for `RowModel`: pydantic rejects a
`None` value for the required `str` fields `CHECK`, `GAME_NAME` and
`DENOMINATION`; every other column is optional.  The error value is the
pydantic error summary text. -/
def model_validate (sheet_id sheet_name : String) (index : Nat)
    (raw : RawRow) : Except String RowModel :=
  let r := stripRaw raw
  match r.CHECK, r.GAME_NAME, r.DENOMINATION with
  | some c, some g, some d =>
    .ok { sheet_id := sheet_id, sheet_name := sheet_name, index := index,
          CHECK := c, PRODUCT_NAME := r.PRODUCT_NAME, PACK := r.PACK,
          GAME_NAME := g, DENOMINATION := d, PRICE := r.PRICE,
          GAME_NOTE := r.GAME_NOTE, CURRENCY := r.CURRENCY,
          NOTE := r.NOTE, FILL_IN := r.FILL_IN, ID_SHEET := r.ID_SHEET,
          SHEET := r.SHEET, COL_NOTE := r.COL_NOTE, CODE := r.CODE,
          COL_CODE := r.COL_CODE }
  | _, _, _ => .error "missing required field"

/-- `NoteMessageUpdatePayload` from `sheet/models.py`. -/
structure NoteMessageUpdatePayload where
  index : Nat
  message : String
  deriving Repr, DecidableEq

/-- The validation-error message built in `batch_get`:
`f"{formated_datetime(datetime.now())} Validation Error at row {index}: {errors}"`.
`nowStr` stands for the formatted timestamp. -/
def validationErrorMessage (nowStr : String) (index : Nat)
    (errs : String) : String :=
  nowStr ++ " Validation Error at row " ++ toString index ++ ": " ++ errs

/-- The per-index loop of `ColSheetModel.batch_get`: each index is
reconstructed from its fetched cells and validated; successes are
appended to `result_list`, failures to `error_list` as note payloads. -/
def batch_get_loop (nowStr sheet_id sheet_name : String)
    (fetch : Nat → RawRow) :
    List Nat → List RowModel × List NoteMessageUpdatePayload
  | [] => ([], [])
  | i :: rest =>
    let t := batch_get_loop nowStr sheet_id sheet_name fetch rest
    match model_validate sheet_id sheet_name i (fetch i) with
    | .ok r => (r :: t.1, t.2)
    | .error e =>
      (t.1, ⟨i, validationErrorMessage nowStr i e⟩ :: t.2)

/-- The note-sink column of `RowModel`: `NOTE`, column letter J. -/
def noteSinkCol : String := "J"

/-- `ColSheetModel.batch_update_note_message`: one batched write, one
range per payload, at `noteColumn + payload.index`. -/
def batch_update_note_message (noteCol : String)
    (update_payloads : List NoteMessageUpdatePayload) :
    List (String × String) :=
  update_payloads.map fun p => (noteCol ++ toString p.index, p.message)

/-- `RowModel.batch_get`: validates every requested index, then flushes
the collected error payloads as a single `batch_update_note_message`
call before returning the validated rows.  Returns
(returned directives, error payloads, the flushed note-write batch). -/
def batch_get (nowStr sheet_id sheet_name : String)
    (fetch : Nat → RawRow) (indexes : List Nat) :
    List RowModel × List NoteMessageUpdatePayload ×
      List (String × String) :=
  let t := batch_get_loop nowStr sheet_id sheet_name fetch indexes
  (t.1, t.2, batch_update_note_message noteSinkCol t.2)

/-- Whether the row reconstructed at `index` fails pydantic schema
validation inside `batch_get`. -/
def failsRow (sheet_id sheet_name : String) (fetch : Nat → RawRow)
    (i : Nat) : Bool :=
  match model_validate sheet_id sheet_name i (fetch i) with
  | .ok _ => false
  | .error _ => true

/-- Serialization of an optional cell value through
`model_dump(mode="json")`: `None` serializes to JSON null, a string to
itself.  Modelled as the `Option` itself. -/
def RowModel.updatableCells (r : RowModel) :
    List (String × Option String) :=
  [("G" ++ toString r.index, r.PRICE),
   ("H" ++ toString r.index, r.GAME_NOTE),
   ("I" ++ toString r.index, r.CURRENCY),
   ("J" ++ toString r.index, r.NOTE)]

/-- `ColSheetModel.batch_update`: one ranged write per (row, updatable
field) — `PRICE` (G), `GAME_NOTE` (H), `CURRENCY` (I), `NOTE` (J) — in
row order, submitted as one batch. -/
def batch_update (list_object : List RowModel) :
    List (String × Option String) :=
  list_object.foldr (fun r acc => r.updatableCells ++ acc) []

/-! ### `processes.py` — the pricing join of batch_process

Denomination values are `str | float` in `FriElidiasGame`; the code
only ever applies Python `str()` to them.  IEEE floats are not shallowly
embeddable, so a JSON number is represented by its Python `str()`
rendering (e.g. the float `5.0` by `"5.0"`), and a string value by
itself. -/

inductive PyVal where
  | str (s : String)
  | num (strRendering : String)
  deriving Repr, DecidableEq

/-- Python `str()` applied to a `str | float` denomination value. -/
def pyStr : PyVal → String
  | .str s => s
  | .num r => r

/-- `FriElidiasGame` from `elitedias/models.py`; `currency` defaults to
`"SGD"` and `get_game_dict` never passes it explicitly. -/
structure FriElidiasGame where
  game : String
  denominations : List (String × PyVal)
  notes : String
  currency : String := "SGD"
  deriving Repr, DecidableEq

/-- Modelled from the spec: `app/sheet/enums.py` (the `CheckType` enum)
is not under src/.  The spec calls its distinguished member the active
"run" marker (`CheckType.RUN.value`), a sentinel string compared
against row flags; its literal spelling is immaterial here. -/
def RUN_value : String := "run"

/-- The per-row body of the `batch_process` loop: when the row's
`GAME_NAME` is in `game_dict` and its `DENOMINATION` is in that game's
denominations, set `PRICE` to `str(value)`, `GAME_NOTE` to the game's
notes, `CURRENCY` to the game's currency and `NOTE` to a success
message; otherwise set `NOTE` to the localized invalid-game/denomination
message and clear `PRICE` to the empty string.  `nowStr` stands for
`formated_datetime(datetime.now())`. -/
def process_row (nowStr : String)
    (game_dict : List (String × FriElidiasGame)) (r : RowModel) :
    RowModel :=
  match lookupKV game_dict r.GAME_NAME with
  | some g =>
    match lookupKV g.denominations r.DENOMINATION with
    | some v =>
      { r with PRICE := some (pyStr v), GAME_NOTE := some g.notes,
               CURRENCY := some g.currency,
               NOTE := some (nowStr ++ " Cập nhật thành công") }
    | none =>
      { r with
        NOTE := some (nowStr ++ " GAME_NAME: " ++ r.GAME_NAME ++
          " hoặc DENOMINATION: " ++ r.DENOMINATION ++ " không hợp lệ"),
        PRICE := some "" }
  | none =>
    { r with
      NOTE := some (nowStr ++ " GAME_NAME: " ++ r.GAME_NAME ++
        " hoặc DENOMINATION: " ++ r.DENOMINATION ++ " không hợp lệ"),
      PRICE := some "" }

/-- The write-back selection of `batch_process` after the pricing loop:
the first component is `to_be_updated_row_models` (rows whose `FILL_IN`
equals `CheckType.RUN.value`), handed to `batch_update_price` (dynamic
resolution); the second is the full `row_models` list handed to
`RowModel.batch_update` (static columns). -/
def batch_process_writes (nowStr : String)
    (game_dict : List (String × FriElidiasGame))
    (row_models : List RowModel) : List RowModel × List RowModel :=
  let processed := row_models.map (process_row nowStr game_dict)
  (processed.filter (fun r => r.FILL_IN = some RUN_value), processed)

/-! ### `processes.py` — find_cell_to_update and batch_update_price

A fetched code column is a grid: one list of cells per row, each cell
either a string or some other JSON value (the code guards with
`isinstance(code_col, str)`). -/

inductive SheetCell where
  | str (s : String)
  | other
  deriving Repr, DecidableEq

/-- Python truthiness of a `str | None` field: `None` and the empty
string are falsy. -/
def truthy : Option String → Bool
  | none => false
  | some s => !s.isEmpty

/-- `gspread.utils.a1_range_to_grid_range` output (pydantic `GridRange`
wrapper from `sheet/utils.py`, all fields defaulting to 0). -/
structure GridRange where
  startRowIndex : Nat := 0
  endRowIndex : Nat := 0
  startColumnIndex : Nat := 0
  endColumnIndex : Nat := 0
  deriving Repr, DecidableEq

/-- Column letters → 1-based column number (A=1, ..., Z=26, AA=27). -/
def lettersToColNum (s : String) : Nat :=
  s.data.foldl (fun acc c => acc * 26 + (c.toNat - 64)) 0

/-- The single letter for digit `k` (0 ↦ A, ..., 25 ↦ Z). -/
def colLetter (k : Nat) : String :=
  String.singleton (Char.ofNat (65 + k))

/-- Fuel-driven bijective base-26 rendering of a 1-based column
number; `fuel = n` always suffices since the number shrinks by a
factor of 26 per step. -/
def colToLettersGo : Nat → Nat → String → String
  | 0, _, acc => acc
  | _ + 1, 0, acc => acc
  | fuel + 1, n + 1, acc =>
    colToLettersGo fuel (n / 26) (colLetter (n % 26) ++ acc)

/-- 1-based column number → column letters (inverse of
`lettersToColNum`). -/
def colToLetters (n : Nat) : String :=
  colToLettersGo n n ""

/-- `gspread.utils.rowcol_to_a1(row, col)` for 1-based row/col. -/
def rowcol_to_a1 (row col : Nat) : String :=
  colToLetters col ++ toString row

/-- `fri_a1_range_to_grid_range("X:X")` for a whole-column range:
gspread reports only the column bounds and the pydantic model defaults
the absent row indexes to 0. -/
def colRangeToGridRange (letter : String) : GridRange :=
  { startColumnIndex := lettersToColNum letter - 1,
    endColumnIndex := lettersToColNum letter }

/-- Eligibility guard of the first loop of `find_cell_to_update`
(building the batched fetch): all six routing fields truthy,
`FILL_IN` included. -/
def phase1Eligible (r : RowModel) : Bool :=
  truthy r.FILL_IN && truthy r.ID_SHEET && truthy r.SHEET &&
    truthy r.COL_NOTE && truthy r.CODE && truthy r.COL_CODE

/-- Eligibility guard of the second loop of `find_cell_to_update`
(resolution): the same fields except that `FILL_IN` is not checked. -/
def phase2Eligible (r : RowModel) : Bool :=
  truthy r.ID_SHEET && truthy r.SHEET && truthy r.COL_NOTE &&
    truthy r.CODE && truthy r.COL_CODE

/-- The triple of dictionary keys under which a row's fetched code
column is stored: `[ID_SHEET][SHEET][COL_CODE-range]`. -/
def routingKey (r : RowModel) : String × String × String :=
  (r.ID_SHEET.getD "", r.SHEET.getD "", r.COL_CODE.getD "")

/-- The keys present in `sheet_get_batch_result_dict` after the fetch
phase: exactly the routing keys of phase-1-eligible rows. -/
def fetchedKeys (row_models : List RowModel) :
    List (String × String × String) :=
  (row_models.filter phase1Eligible).map routingKey

/-- The inner match test of the scan loop:
`isinstance(code_col, str) and row_model.CODE.strip() == code_col.strip()`. -/
def cellMatches (code : String) : SheetCell → Bool
  | .str s => pyStrip code = pyStrip s
  | .other => false

/-- All matching `(i, j)` positions of the nested scan loop, in scan
order (`i` over grid rows, `j` over cells of a row). -/
def matchPositions (code : String) (grid : List (List SheetCell)) :
    List (Nat × Nat) :=
  grid.enum.flatMap fun p =>
    p.2.enum.filterMap fun q =>
      if cellMatches code q.2 then some (p.1, q.1) else none

/-- The body of the scan loop repeatedly assigns
`mapping_dict[key] = addr`, once per match in scan order. -/
def scanAssign (mapping : List (String × String)) (key : String)
    (addrs : List String) : List (String × String) :=
  addrs.foldl (fun m a => setKV m key a) mapping

/-- Resolution of one phase-2-eligible row against its fetched code
column: every match writes
`rowcol_to_a1(i + 1 + codeRange.startRowIndex, j + 1 + noteRange.startColumnIndex)`
into the mapping under `str(row.index)`. -/
def resolveRow
    (grid : String → String → String → List (List SheetCell))
    (r : RowModel) (mapping : List (String × String)) :
    List (String × String) :=
  let codeGR := colRangeToGridRange (r.COL_CODE.getD "")
  let noteGR := colRangeToGridRange (r.COL_NOTE.getD "")
  let g := grid (r.ID_SHEET.getD "") (r.SHEET.getD "") (r.COL_CODE.getD "")
  scanAssign mapping (toString r.index)
    ((matchPositions (r.CODE.getD "") g).map fun p =>
      rowcol_to_a1 (p.1 + 1 + codeGR.startRowIndex)
        (p.2 + 1 + noteGR.startColumnIndex))

/-- The second loop of `find_cell_to_update`: phase-2-eligible rows
index `sheet_get_batch_result_dict` directly; a key that was never
fetched raises `KeyError` (modelled as the error branch). -/
def find_cell_loop
    (grid : String → String → String → List (List SheetCell))
    (fetched : List (String × String × String)) :
    List (String × String) → List RowModel →
      Except String (List (String × String))
  | mapping, [] => .ok mapping
  | mapping, r :: rest =>
    if phase2Eligible r then
      if routingKey r ∈ fetched then
        find_cell_loop grid fetched (resolveRow grid r mapping) rest
      else .error ("KeyError: " ++ r.ID_SHEET.getD "")
    else find_cell_loop grid fetched mapping rest

/-- `find_cell_to_update(row_models)`: `grid` is the spreadsheet
service, mapping `(sheet_id, sheet_name, column letter)` to the fetched
code column. -/
def find_cell_to_update
    (grid : String → String → String → List (List SheetCell))
    (row_models : List RowModel) :
    Except String (List (String × String)) :=
  find_cell_loop grid (fetchedKeys row_models) [] row_models

/-- `batch_update_price(to_be_updated_row_models)`: resolves cells,
then for each row with truthy `ID_SHEET`, `SHEET` and `COL_NOTE` whose
index is in the mapping, emits a free-style write of
`row.PRICE if row.PRICE else ""` at the resolved cell.  The per-sheet
grouping of the Python dict is flattened here into one list of
(cell, value) writes in row order; which cells are written and with
what value is preserved exactly. -/
def batch_update_price
    (grid : String → String → String → List (List SheetCell))
    (to_be_updated_row_models : List RowModel) :
    Except String (List (String × String)) :=
  match find_cell_to_update grid to_be_updated_row_models with
  | .error e => .error e
  | .ok mapping =>
    .ok (to_be_updated_row_models.filterMap fun r =>
      if truthy r.ID_SHEET && truthy r.SHEET && truthy r.COL_NOTE then
        match lookupKV mapping (toString r.index) with
        | some cell => some (cell, r.PRICE.getD "")
        | none => none
      else none)

/-! ### Concrete fixtures used by the claim-level evaluations -/

/-- A free-form row carrying all six routing fields. -/
def rowAllRouting : RowModel where
  sheet_id := "main"
  sheet_name := "queue"
  index := 4
  CHECK := "x"
  GAME_NAME := "g"
  DENOMINATION := "d"
  FILL_IN := some "run"
  ID_SHEET := some "sid"
  SHEET := some "sn"
  COL_NOTE := some "N"
  CODE := some "c"
  COL_CODE := some "P"

/-- The same free-form row with a blank `FILL_IN` cell: phase 2 of
`find_cell_to_update` still treats it as eligible, but phase 1 never
fetched its code column. -/
def rowNoFillIn : RowModel := { rowAllRouting with FILL_IN := none }

/-- A sheet service whose every code column is empty. -/
def emptyGrid : String → String → String → List (List SheetCell) :=
  fun _ _ _ => []

/-- A sheet service whose code columns contain the lookup code `"c"`
at scan rows 0 and 2 (the second match only up to whitespace). -/
def twoMatchGrid : String → String → String → List (List SheetCell) :=
  fun _ _ _ => [[.str "c"], [.str "x"], [.str " c "]]

/-- A second free-form row (distinct index, lookup code absent from
the code column) processed in the same batch as `rowAllRouting`. -/
def rowOther : RowModel where
  sheet_id := "main"
  sheet_name := "queue"
  index := 9
  CHECK := "x"
  GAME_NAME := "g2"
  DENOMINATION := "d2"
  FILL_IN := some "run"
  ID_SHEET := some "sid"
  SHEET := some "sn"
  COL_NOTE := some "N"
  CODE := some "zzz"
  COL_CODE := some "P"

/-- A one-game catalog with a single denomination, as in the spec's
price-join example. -/
def gdW : List (String × FriElidiasGame) :=
  [("G", ⟨"G", [("10", .num "5.0")], "n", "SGD"⟩)]

/-- A priced row without the run marker (`FILL_IN` blank). -/
def rowNonRun : RowModel where
  sheet_id := "main"
  sheet_name := "queue"
  index := 7
  CHECK := "x"
  GAME_NAME := "G"
  DENOMINATION := "10"
  FILL_IN := none

/-- The same priced row carrying the run marker. -/
def rowRun : RowModel := { rowNonRun with FILL_IN := some RUN_value }

end PriceLog

namespace PriceLog

/-! ### Retry theorems (claim C3 groundwork) -/

theorem retryGo_always_fails (f : Nat → Except E A) (e : Nat → E) (s : Nat)
    (hf : ∀ i, f i = .error (e i)) :
    ∀ r i, retryGo f s i r =
      ⟨.error (e (i + r)), r + 1, List.replicate r s⟩ := by
  intro r
  induction r with
  | zero =>
    intro i
    simp [retryGo, hf i]
  | succ r ih =>
    intro i
    simp only [retryGo, hf i]
    rw [ih (i + 1)]
    have h1 : i + 1 + r = i + (r + 1) := by omega
    simp [h1, List.replicate]

theorem retryGo_succeeds (f : Nat → Except E A) (s : Nat) (j : Nat) (a : A)
    (hj : f j = .ok a) (hfail : ∀ i, i < j → ∃ e, f i = .error e) :
    ∀ r i, i + r ≥ j → i ≤ j →
      retryGo f s i r =
        ⟨.ok a, j - i + 1, List.replicate (j - i) s⟩ := by
  intro r
  induction r with
  | zero =>
    intro i hge hle
    have : i = j := by omega
    subst this
    simp [retryGo, hj]
  | succ r ih =>
    intro i hge hle
    by_cases hij : i = j
    · subst hij
      simp [retryGo, hj]
    · obtain ⟨e, he⟩ := hfail i (by omega)
      simp only [retryGo, he]
      rw [ih (i + 1) (by omega) (by omega)]
      have h1 : j - i = (j - (i + 1)) + 1 := by omega
      simp [h1, List.replicate]

/-! ### Helper lemmas about the dict model -/

theorem lookupKV_setKV_self (m : List (String × β)) (k : String)
    (v : β) : lookupKV (setKV m k v) k = some v := by
  induction m with
  | nil => simp [setKV, lookupKV]
  | cons p rest ih =>
    by_cases h : p.1 = k
    · simp [setKV, h, lookupKV]
    · simp [setKV, h, lookupKV, ih]

theorem setKV_setKV (m : List (String × β)) (k : String) (v v' : β) :
    setKV (setKV m k v) k v' = setKV m k v' := by
  induction m with
  | nil => simp [setKV]
  | cons p rest ih =>
    by_cases h : p.1 = k
    · simp [setKV, h]
    · simp [setKV, h, ih]

theorem scanAssign_of_getLast? (k a : String) :
    ∀ (addrs : List String) (m : List (String × String)),
      addrs.getLast? = some a → scanAssign m k addrs = setKV m k a := by
  intro addrs
  induction addrs with
  | nil => intro m h; simp at h
  | cons x xs ih =>
    intro m h
    match xs, h with
    | [], h =>
      simp at h
      subst h
      simp [scanAssign]
    | y :: ys, h =>
      rw [List.getLast?_cons_cons] at h
      have := ih (setKV m k x) h
      simp only [scanAssign, List.foldl_cons] at this ⊢
      rw [this, setKV_setKV]

/-! ### Claim theorems -/

/-- C3: the retry policy invokes an always-failing operation exactly
`max_retries + 1` times and then re-raises the last exception
unchanged; an operation that first succeeds at attempt `j` (0-based,
so invocation `j + 1 ≤ max_retries + 1`) returns its result after
exactly `j + 1` invocations; every inter-attempt delay is the fixed
`sleep_interval` (the delay list is a constant replicate, no
growth). -/
theorem retry_on_fail_correct (max_retries sleep_interval : Nat) :
    (∀ (E A : Type) (f : Nat → Except E A) (e : Nat → E),
      (∀ i, f i = .error (e i)) →
      retry_on_fail max_retries sleep_interval f =
        ⟨.error (e max_retries), max_retries + 1,
          List.replicate max_retries sleep_interval⟩) ∧
    (∀ (E A : Type) (f : Nat → Except E A) (j : Nat) (a : A),
      j ≤ max_retries → f j = .ok a →
      (∀ i, i < j → ∃ er, f i = .error er) →
      retry_on_fail max_retries sleep_interval f =
        ⟨.ok a, j + 1, List.replicate j sleep_interval⟩) := by
  constructor
  · intro E A f e hf
    have h := retryGo_always_fails f e sleep_interval hf max_retries 0
    simpa [retry_on_fail] using h
  · intro E A f j a hle hj hfail
    have h := retryGo_succeeds f sleep_interval j a hj hfail max_retries 0
      (by omega) (by omega)
    simpa [retry_on_fail] using h

/-- Witness for C3: `max_retries = 3`, fixed interval 10; the
always-failing operation is invoked 4 times and its exception
re-raised; an operation succeeding at attempt index 2 is invoked 3
times. -/
theorem retry_on_fail_correct_witness :
    retry_on_fail 3 10 (fun _ => (.error "boom" : Except String Nat)) =
      ⟨.error "boom", 4, [10, 10, 10]⟩ ∧
    retry_on_fail 3 10
        (fun i => if i = 2 then .ok 42 else (.error "x" : Except String Nat)) =
      ⟨.ok 42, 3, [10, 10]⟩ := by
  constructor
  · have h := (retry_on_fail_correct 3 10).1 String Nat
      (fun _ => .error "boom") (fun _ => "boom") (fun _ => rfl)
    simpa using h
  · have h := (retry_on_fail_correct 3 10).2 String Nat
      (fun i => if i = 2 then .ok 42 else .error "x") 2 42 (by omega)
      (by simp) (fun i hi => ⟨"x", by simp [Nat.ne_of_lt hi]⟩)
    simpa using h

/-- C4: `CacheData.is_valid` is true iff `now - date < valid`; the
pydantic default for `valid` is seven days; a `get_denominations` call
on a still-valid record returns the cached payload with zero upstream
calls and leaves the record unchanged; once the TTL has elapsed
(`valid ≤ now - date`) a call performs exactly one upstream call and
overwrites the record with `date = now` and the configured
`CACHE_VALID` duration. -/
theorem cache_ttl_correct :
    (∀ (U : Type) (c : CacheData U) (now : Int),
      c.is_valid now = true ↔ now - c.date < c.valid) ∧
    (∀ (U : Type) (d : Int) (x : U),
      ({ date := d, data := x } : CacheData U).valid = sevenDays) ∧
    (∀ (D : Type) (now cv : Int) (c : CacheData D)
        (up : Except HttpError D),
      c.is_valid now = true →
      get_denominations now cv (some c) up = .ok ⟨c.data, some c, 0⟩) ∧
    (∀ (D : Type) (now cv : Int) (c : CacheData D) (d : D),
      c.valid ≤ now - c.date →
      get_denominations now cv (some c) (.ok d) =
        .ok ⟨d, some ⟨now, cv, d⟩, 1⟩) := by
  refine ⟨?_, ?_, ?_, ?_⟩
  · intro U c now
    simp [CacheData.is_valid]
  · intro U d x
    rfl
  · intro D now cv c up hv
    simp [get_denominations, hv]
  · intro D now cv c d hst
    have : c.is_valid now = false := by
      simp [CacheData.is_valid]
      omega
    simp [get_denominations, this]

/-- Witness for C4: a record written at time 0 with TTL 5 is a pure
cache hit at `now = 4` and triggers exactly one upstream call with a
full overwrite at `now = 5`. -/
theorem cache_ttl_correct_witness :
    (({ date := 0, valid := 5, data := 7 } : CacheData Nat).is_valid 4 =
      true ↔ (4 : Int) - 0 < 5) ∧
    get_denominations 4 9 (some ⟨0, 5, 7⟩) (.ok 3) =
      .ok ⟨7, some ⟨0, 5, 7⟩, 0⟩ ∧
    get_denominations 5 9 (some ⟨0, 5, 7⟩) (.ok 3) =
      .ok ⟨3, some ⟨5, 9, 3⟩, 1⟩ :=
  ⟨cache_ttl_correct.1 Nat ⟨0, 5, 7⟩ 4,
   cache_ttl_correct.2.2.1 Nat 4 9 ⟨0, 5, 7⟩ (.ok 3) (by decide),
   cache_ttl_correct.2.2.2 Nat 5 9 ⟨0, 5, 7⟩ 3 (by decide)⟩

/-- C5: a `get_elitedias_game_fields` call for a game already in the
permanent `game_notes.json` cache returns immediately — zero upstream
calls, zero post-call delay, cache unchanged; on a miss with a
successful upstream response it performs one upstream call, sleeps the
mandatory 10 units, and persists the notes so that the game is a cache
hit afterwards. -/
theorem notes_cache_permanence :
    (∀ (cache : List (String × String)) (game notes : String)
        (up : Except HttpError ElitediasGameFields),
      lookupKV cache game = some notes →
      get_elitedias_game_fields cache game up =
        .ok ⟨⟨"200", ⟨[], notes⟩⟩, cache, 0, 0⟩) ∧
    (∀ (cache : List (String × String)) (game : String)
        (m : ElitediasGameFields),
      lookupKV cache game = none →
      get_elitedias_game_fields cache game (.ok m) =
        .ok ⟨m, setKV cache game m.info.notes, 1, 10⟩ ∧
      lookupKV (setKV cache game m.info.notes) game =
        some m.info.notes) := by
  constructor
  · intro cache game notes up hhit
    simp [get_elitedias_game_fields, hhit]
  · intro cache game m hmiss
    refine ⟨?_, lookupKV_setKV_self cache game m.info.notes⟩
    simp [get_elitedias_game_fields, hmiss]

/-- Witness for C5: a hit on a one-entry cache makes no upstream call
and sleeps 0; a miss calls upstream once, sleeps 10, and turns the
game into a permanent hit. -/
theorem notes_cache_permanence_witness :
    get_elitedias_game_fields [("g", "note-g")] "g"
        (.error .timeout) =
      .ok ⟨⟨"200", ⟨[], "note-g"⟩⟩, [("g", "note-g")], 0, 0⟩ ∧
    (get_elitedias_game_fields [] "g"
        (.ok ⟨"200", ⟨["uid"], "fresh"⟩⟩) =
      .ok ⟨⟨"200", ⟨["uid"], "fresh"⟩⟩, [("g", "fresh")], 1, 10⟩ ∧
     lookupKV (setKV [] "g" "fresh") "g" = some "fresh") :=
  ⟨notes_cache_permanence.1 [("g", "note-g")] "g" "note-g"
    (.error .timeout) (by simp [lookupKV]),
   notes_cache_permanence.2 [] "g" ⟨"200", ⟨["uid"], "fresh"⟩⟩ rfl⟩

/-- C10: on a permanent-cache hit, `get_elitedias_game_fields` builds
its response locally: the `fields` list is always empty and the status
code is the constant `"200"` no matter what the upstream would return;
only the cached notes string is carried over. -/
theorem notes_cache_hit_shape (cache : List (String × String))
    (game notes : String) (up : Except HttpError ElitediasGameFields) :
    lookupKV cache game = some notes →
    ∃ res, get_elitedias_game_fields cache game up = .ok res ∧
      res.response.info.fields = [] ∧ res.response.code = "200" ∧
      res.response.info.notes = notes ∧ res.upstreamCalls = 0 := by
  intro hhit
  exact ⟨⟨⟨"200", ⟨[], notes⟩⟩, cache, 0, 0⟩,
    by simp [get_elitedias_game_fields, hhit], rfl, rfl, rfl, rfl⟩

/-- Witness for C10: even an upstream that would answer with code
`"500"` and a non-empty field list is never consulted on a hit. -/
theorem notes_cache_hit_shape_witness :
    ∃ res, get_elitedias_game_fields [("g", "n")] "g"
        (.ok ⟨"500", ⟨["f1", "f2"], "other"⟩⟩) = .ok res ∧
      res.response.info.fields = [] ∧ res.response.code = "200" ∧
      res.response.info.notes = "n" ∧ res.upstreamCalls = 0 :=
  notes_cache_hit_shape [("g", "n")] "g" "n"
    (.ok ⟨"500", ⟨["f1", "f2"], "other"⟩⟩) (by simp [lookupKV])

/-- Counterexample for C7: the claim says an `UpstreamError` — covering
both a non-2xx response and a timeout — during a group's denomination
fetch is downgraded to an empty denomination map and the cycle
continues.  For the single group `"g"` whose fetch times out, the
denomination loop of `get_game_dict` does not produce the empty-map
fallback `[[]]`: the `except HTTPStatusError` clause does not catch a
timeout, so it propagates and aborts the cycle. -/
theorem denom_timeout_aborts_cycle :
    get_game_dict_denoms
        (fun _ => (.error .timeout :
          Except HttpError (List (String × PyVal)))) [] ["g"] =
      .error .timeout ∧
    get_game_dict_denoms
        (fun _ => (.error .timeout :
          Except HttpError (List (String × PyVal)))) [] ["g"] ≠
      .ok [[]] := by
  constructor
  · rfl
  · intro h
    simp [get_game_dict_denoms, denom_loop_step] at h

/-- C7 (amended): only a non-2xx response (`HTTPStatusError`) during a
group's denomination fetch is caught and downgraded to an empty
denomination map; catalog building then continues with the remaining
groups.  A timeout is not caught: it propagates out of the loop and
aborts the cycle. -/
theorem denom_status_error_downgraded :
    (∀ (D : Type) (fetch : String → Except HttpError D) (emptyD : D)
        (g : String) (s : Nat),
      fetch g = .error (.statusError s) →
      denom_loop_step fetch emptyD g = .ok emptyD) ∧
    (∀ (D : Type) (fetch : String → Except HttpError D) (emptyD : D)
        (games : List String),
      (∀ g, g ∈ games → fetch g ≠ .error .timeout) →
      get_game_dict_denoms fetch emptyD games =
        .ok (games.map fun g =>
          match fetch g with
          | .ok d => d
          | _ => emptyD)) ∧
    (∀ (D : Type) (fetch : String → Except HttpError D) (emptyD : D)
        (g : String) (games : List String),
      fetch g = .error .timeout → g ∈ games →
      get_game_dict_denoms fetch emptyD games = .error .timeout) := by
  refine ⟨?_, ?_, ?_⟩
  · intro D fetch emptyD g s hs
    simp [denom_loop_step, hs]
  · intro D fetch emptyD games hnt
    induction games with
    | nil => simp [get_game_dict_denoms]
    | cons g gs ih =>
      have hg := hnt g (by simp)
      have ihg := ih (fun g' hg' => hnt g' (by simp [hg']))
      match hfg : fetch g with
      | .ok d => simp [get_game_dict_denoms, denom_loop_step, hfg, ihg]
      | .error (.statusError s) =>
        simp [get_game_dict_denoms, denom_loop_step, hfg, ihg]
      | .error .timeout => exact absurd hfg hg
  · intro D fetch emptyD g games hg hmem
    induction games with
    | nil => simp at hmem
    | cons g' gs ih =>
      rcases List.mem_cons.mp hmem with h | h
      · subst h
        simp [get_game_dict_denoms, denom_loop_step, hg]
      · cases hh : fetch g' with
        | ok d => simp [get_game_dict_denoms, denom_loop_step, hh, ih h]
        | error er =>
          cases er with
          | statusError s =>
            simp [get_game_dict_denoms, denom_loop_step, hh, ih h]
          | timeout =>
            simp [get_game_dict_denoms, denom_loop_step, hh]

/-- Witness for C7 (amended): a catalog of three groups where `"a"`
succeeds, `"b"` answers 500 and `"c"` succeeds yields per-group results
with the empty fallback in the middle, while a timeout on `"b"` aborts
the whole loop. -/
theorem denom_status_error_downgraded_witness :
    denom_loop_step
        (fun g => if g = "b" then .error (.statusError 500)
          else (.ok [g] : Except HttpError (List String))) [] "b" =
      .ok [] ∧
    get_game_dict_denoms
        (fun g => if g = "b" then .error (.statusError 500)
          else (.ok [g] : Except HttpError (List String))) []
        ["a", "b", "c"] =
      .ok [["a"], [], ["c"]] ∧
    get_game_dict_denoms
        (fun g => if g = "b" then .error .timeout
          else (.ok [g] : Except HttpError (List String))) []
        ["a", "b", "c"] =
      .error .timeout := by
  refine ⟨?_, ?_, ?_⟩
  · exact denom_status_error_downgraded.1 (List String) _ [] "b" 500
      (by simp)
  · have h := denom_status_error_downgraded.2.1 (List String)
      (fun g => if g = "b" then .error (.statusError 500) else .ok [g])
      [] ["a", "b", "c"] (by intro g hg; fin_cases hg <;> simp)
    simpa using h
  · exact denom_status_error_downgraded.2.2 (List String)
      (fun g => if g = "b" then .error .timeout else .ok [g]) [] "b"
      ["a", "b", "c"] (by simp) (by simp)

theorem batch_get_loop_error_indexes (nowStr sheet_id sheet_name : String)
    (fetch : Nat → RawRow) :
    ∀ indexes : List Nat,
      ((batch_get_loop nowStr sheet_id sheet_name fetch indexes).2.map
        (fun p => p.index)) =
        indexes.filter (failsRow sheet_id sheet_name fetch) := by
  intro indexes
  induction indexes with
  | nil => simp [batch_get_loop]
  | cons i rest ih =>
    simp only [batch_get_loop]
    cases hv : model_validate sheet_id sheet_name i (fetch i) with
    | ok r => simp [hv, List.filter_cons, failsRow, ih]
    | error e => simp [hv, List.filter_cons, failsRow, ih]

theorem batch_get_loop_total_length (nowStr sheet_id sheet_name : String)
    (fetch : Nat → RawRow) :
    ∀ indexes : List Nat,
      (batch_get_loop nowStr sheet_id sheet_name fetch indexes).1.length +
        (batch_get_loop nowStr sheet_id sheet_name fetch indexes).2.length =
        indexes.length := by
  intro indexes
  induction indexes with
  | nil => simp [batch_get_loop]
  | cons i rest ih =>
    simp only [batch_get_loop]
    cases hv : model_validate sheet_id sheet_name i (fetch i) with
    | ok r => simp [hv]; omega
    | error e => simp [hv]; omega

/-- C1: for a batch of `N = indexes.length` row indexes of which
exactly `k` fail schema validation, `batch_get` returns exactly
`N - k` directives, collects exactly `k` note payloads whose indexes
are precisely the failing indexes (in order), and flushes them as the
single batched note-column write — one range per payload at
`noteSinkCol ++ index`, i.e. the note-sink column J — returned as the
third component (issued before `batch_get` returns). -/
theorem row_validation_isolation (nowStr sheet_id sheet_name : String)
    (fetch : Nat → RawRow) (indexes : List Nat) :
    (batch_get nowStr sheet_id sheet_name fetch indexes).1.length =
      indexes.length -
        (indexes.filter (failsRow sheet_id sheet_name fetch)).length ∧
    ((batch_get nowStr sheet_id sheet_name fetch indexes).2.1.map
      (fun p => p.index)) =
      indexes.filter (failsRow sheet_id sheet_name fetch) ∧
    (batch_get nowStr sheet_id sheet_name fetch indexes).2.1.length =
      (indexes.filter (failsRow sheet_id sheet_name fetch)).length ∧
    (batch_get nowStr sheet_id sheet_name fetch indexes).2.2 =
      (batch_get nowStr sheet_id sheet_name fetch indexes).2.1.map
        (fun p => (noteSinkCol ++ toString p.index, p.message)) := by
  have hmap := batch_get_loop_error_indexes nowStr sheet_id sheet_name
    fetch indexes
  have hlen := batch_get_loop_total_length nowStr sheet_id sheet_name
    fetch indexes
  have herrlen :
      (batch_get_loop nowStr sheet_id sheet_name fetch indexes).2.length =
        (indexes.filter (failsRow sheet_id sheet_name fetch)).length := by
    rw [← hmap, List.length_map]
  refine ⟨?_, hmap, herrlen, rfl⟩
  simp only [batch_get]
  omega

/-- C2: when a directive's `GAME_NAME` resolves to a catalog game and
its `DENOMINATION` is in that game's map, `batch_process` sets the
price to the Python `str()` of the catalog value, the game note to the
catalog's notes and the currency to the catalog's currency; when the
game resolves but the denomination key is absent from its map, the
price is cleared to the empty string and the note-sink message embeds
both the `GAME_NAME` and `DENOMINATION` identifiers. -/
theorem price_join_correct :
    (∀ (nowStr : String) (game_dict : List (String × FriElidiasGame))
        (r : RowModel) (g : FriElidiasGame) (v : PyVal),
      lookupKV game_dict r.GAME_NAME = some g →
      lookupKV g.denominations r.DENOMINATION = some v →
      (process_row nowStr game_dict r).PRICE = some (pyStr v) ∧
      (process_row nowStr game_dict r).GAME_NOTE = some g.notes ∧
      (process_row nowStr game_dict r).CURRENCY = some g.currency) ∧
    (∀ (nowStr : String) (game_dict : List (String × FriElidiasGame))
        (r : RowModel) (g : FriElidiasGame),
      lookupKV game_dict r.GAME_NAME = some g →
      lookupKV g.denominations r.DENOMINATION = none →
      (process_row nowStr game_dict r).PRICE = some "" ∧
      ∃ pre mid post, (process_row nowStr game_dict r).NOTE =
        some (pre ++ r.GAME_NAME ++ (mid ++ r.DENOMINATION ++ post))) := by
  constructor
  · intro nowStr game_dict r g v hg hv
    simp [process_row, hg, hv]
  · intro nowStr game_dict r g hg hv
    refine ⟨by simp [process_row, hg, hv], nowStr ++ " GAME_NAME: ",
      " hoặc DENOMINATION: ", " không hợp lệ", ?_⟩
    simp [process_row, hg, hv, String.append_assoc]

/-- Witness for C2, the spec's own example: `skuGroup "G"`,
`denominationKey "10"`, catalog value the float `5.0`, notes `"n"`,
currency `"SGD"` give price `"5.0"`, note `"n"`, currency `"SGD"`;
key `"99"` absent from the map clears the price and the note message
carries both identifiers. -/
theorem price_join_correct_witness :
    ((process_row "T" [("G", ⟨"G", [("10", .num "5.0")], "n", "SGD"⟩)]
        { sheet_id := "s", sheet_name := "n", index := 5, CHECK := "x",
          GAME_NAME := "G", DENOMINATION := "10" }).PRICE = some "5.0" ∧
     (process_row "T" [("G", ⟨"G", [("10", .num "5.0")], "n", "SGD"⟩)]
        { sheet_id := "s", sheet_name := "n", index := 5, CHECK := "x",
          GAME_NAME := "G", DENOMINATION := "10" }).GAME_NOTE = some "n" ∧
     (process_row "T" [("G", ⟨"G", [("10", .num "5.0")], "n", "SGD"⟩)]
        { sheet_id := "s", sheet_name := "n", index := 5, CHECK := "x",
          GAME_NAME := "G", DENOMINATION := "10" }).CURRENCY =
        some "SGD") ∧
    ((process_row "T" [("G", ⟨"G", [("10", .num "5.0")], "n", "SGD"⟩)]
        { sheet_id := "s", sheet_name := "n", index := 5, CHECK := "x",
          GAME_NAME := "G", DENOMINATION := "99" }).PRICE = some "" ∧
     ∃ pre mid post,
       (process_row "T" [("G", ⟨"G", [("10", .num "5.0")], "n", "SGD"⟩)]
          { sheet_id := "s", sheet_name := "n", index := 5, CHECK := "x",
            GAME_NAME := "G", DENOMINATION := "99" }).NOTE =
         some (pre ++ "G" ++ (mid ++ "99" ++ post))) :=
  ⟨price_join_correct.1 "T" [("G", ⟨"G", [("10", .num "5.0")], "n", "SGD"⟩)]
      { sheet_id := "s", sheet_name := "n", index := 5, CHECK := "x",
        GAME_NAME := "G", DENOMINATION := "10" }
      ⟨"G", [("10", .num "5.0")], "n", "SGD"⟩ (.num "5.0")
      (by simp [lookupKV]) (by simp [lookupKV]),
   price_join_correct.2 "T" [("G", ⟨"G", [("10", .num "5.0")], "n", "SGD"⟩)]
      { sheet_id := "s", sheet_name := "n", index := 5, CHECK := "x",
        GAME_NAME := "G", DENOMINATION := "99" }
      ⟨"G", [("10", .num "5.0")], "n", "SGD"⟩
      (by simp [lookupKV]) (by simp [lookupKV])⟩

theorem phase1_implies_phase2 (r : RowModel) :
    phase1Eligible r = true → phase2Eligible r = true := by
  simp only [phase1Eligible, phase2Eligible, Bool.and_eq_true]
  tauto

theorem lookupKV_setKV_ne (m : List (String × β)) (k k' : String)
    (v : β) (h : k' ≠ k) : lookupKV (setKV m k' v) k = lookupKV m k := by
  induction m with
  | nil => simp [setKV, lookupKV, h]
  | cons p rest ih =>
    by_cases hp : p.1 = k'
    · simp [setKV, hp, lookupKV, h]
    · simp [setKV, hp, lookupKV, ih]

theorem scanAssign_preserve (k k' : String) (h : k' ≠ k) :
    ∀ (addrs : List String) (m : List (String × String)),
      lookupKV (scanAssign m k' addrs) k = lookupKV m k := by
  intro addrs
  induction addrs with
  | nil => intro m; simp [scanAssign]
  | cons a as ih =>
    intro m
    simp only [scanAssign, List.foldl_cons] at *
    rw [ih (setKV m k' a), lookupKV_setKV_ne m k k' a h]

theorem resolveRow_preserve
    (grid : String → String → String → List (List SheetCell))
    (x : RowModel) (key : String) (h : toString x.index ≠ key)
    (m : List (String × String)) :
    lookupKV (resolveRow grid x m) key = lookupKV m key := by
  simp only [resolveRow]
  exact scanAssign_preserve key (toString x.index) h _ m

theorem resolveRow_sets
    (grid : String → String → String → List (List SheetCell))
    (r : RowModel) (i j : Nat)
    (hlast : (matchPositions (r.CODE.getD "")
      (grid (r.ID_SHEET.getD "") (r.SHEET.getD "")
        (r.COL_CODE.getD ""))).getLast? = some (i, j))
    (m : List (String × String)) :
    lookupKV (resolveRow grid r m) (toString r.index) =
      some (rowcol_to_a1 (i + 1)
        (j + 1 + (lettersToColNum (r.COL_NOTE.getD "") - 1))) := by
  have haddr :
      ((matchPositions (r.CODE.getD "")
        (grid (r.ID_SHEET.getD "") (r.SHEET.getD "")
          (r.COL_CODE.getD ""))).map (fun p =>
        rowcol_to_a1
          (p.1 + 1 +
            (colRangeToGridRange (r.COL_CODE.getD "")).startRowIndex)
          (p.2 + 1 +
            (colRangeToGridRange
              (r.COL_NOTE.getD "")).startColumnIndex))).getLast? =
      some (rowcol_to_a1 (i + 1)
        (j + 1 + (lettersToColNum (r.COL_NOTE.getD "") - 1))) := by
    rw [List.getLast?_map, hlast]
    simp [colRangeToGridRange]
  simp only [resolveRow]
  rw [scanAssign_of_getLast? _ _ _ _ haddr]
  exact lookupKV_setKV_self m (toString r.index) _

/-- Under the no-missing-fetch condition, the resolution loop never
raises and acts as a left fold of `resolveRow` over the
phase-2-eligible rows. -/
theorem find_cell_loop_ok
    (grid : String → String → String → List (List SheetCell))
    (fetched : List (String × String × String)) :
    ∀ (l : List RowModel) (mapping : List (String × String)),
      (∀ x ∈ l, phase2Eligible x = true → routingKey x ∈ fetched) →
      find_cell_loop grid fetched mapping l =
        .ok (l.foldl (fun m x =>
          if phase2Eligible x then resolveRow grid x m else m) mapping) := by
  intro l
  induction l with
  | nil => intro mapping _; simp [find_cell_loop]
  | cons x xs ih =>
    intro mapping hall
    by_cases h2 : phase2Eligible x = true
    · have hf := hall x (by simp) h2
      simp [find_cell_loop, h2, hf, ih _ (fun y hy => hall y (by simp [hy]))]
    · simp [find_cell_loop, h2, ih _ (fun y hy => hall y (by simp [hy]))]

theorem fold_resolve_preserve
    (grid : String → String → String → List (List SheetCell))
    (key : String) :
    ∀ (l : List RowModel) (m : List (String × String)),
      (∀ y ∈ l, toString y.index ≠ key) →
      lookupKV (l.foldl (fun m x =>
          if phase2Eligible x then resolveRow grid x m else m) m) key =
        lookupKV m key := by
  intro l
  induction l with
  | nil => intro m _; simp
  | cons z zs ih =>
    intro m hne
    simp only [List.foldl_cons]
    rw [ih _ (fun y hy => hne y (by simp [hy]))]
    by_cases h2 : phase2Eligible z = true
    · rw [if_pos h2, resolveRow_preserve grid z key (hne z (by simp)) m]
    · rw [if_neg h2]

theorem fold_resolve_lookup
    (grid : String → String → String → List (List SheetCell))
    (r : RowModel) (i j : Nat) (h2r : phase2Eligible r = true)
    (hlast : (matchPositions (r.CODE.getD "")
      (grid (r.ID_SHEET.getD "") (r.SHEET.getD "")
        (r.COL_CODE.getD ""))).getLast? = some (i, j)) :
    ∀ (l : List RowModel) (mapping : List (String × String)),
      r ∈ l →
      (∀ x ∈ l, x = r ∨ toString x.index ≠ toString r.index) →
      lookupKV (l.foldl (fun m x =>
          if phase2Eligible x then resolveRow grid x m else m) mapping)
        (toString r.index) =
      some (rowcol_to_a1 (i + 1)
        (j + 1 + (lettersToColNum (r.COL_NOTE.getD "") - 1))) := by
  intro l
  induction l with
  | nil => intro mapping hr; simp at hr
  | cons x xs ih =>
    intro mapping hr hkeys
    simp only [List.foldl_cons]
    by_cases hx : x = r
    · subst hx
      rw [if_pos h2r]
      by_cases hrxs : x ∈ xs
      · exact ih _ hrxs (fun y hy => hkeys y (by simp [hy]))
      · have hne : ∀ y ∈ xs, toString y.index ≠ toString x.index := by
          intro y hy
          rcases hkeys y (by simp [hy]) with h | h
          · exact absurd (h ▸ hy) hrxs
          · exact h
        rw [fold_resolve_preserve grid (toString x.index) xs _ hne]
        exact resolveRow_sets grid x i j hlast mapping
    · have hrxs : r ∈ xs := by
        rcases List.mem_cons.mp hr with h | h
        · exact absurd h.symm hx
        · exact h
      exact ih _ hrxs (fun y hy => hkeys y (by simp [hy]))

/-- C6: in any processed batch in which every resolution-eligible row
was fetched (all carry `FILL_IN`) and row indexes identify rows
uniquely, a free-form row whose lookup code matches one or more cells
of its fetched code column resolves to the cell address computed from
the last match in scan order — position `(i, j)` given by `getLast?`
of the scan-ordered match list, later matches overwriting earlier
ones — and the column component of that address comes from the note
column's grid position (`lettersToColNum COL_NOTE - 1`), not the code
column's. -/
theorem dynamic_resolution_last_match
    (grid : String → String → String → List (List SheetCell))
    (rows : List RowModel) (r : RowModel) (i j : Nat) :
    (∀ x ∈ rows, phase2Eligible x = true → phase1Eligible x = true) →
    r ∈ rows →
    phase1Eligible r = true →
    (∀ x ∈ rows, x = r ∨ toString x.index ≠ toString r.index) →
    (matchPositions (r.CODE.getD "")
      (grid (r.ID_SHEET.getD "") (r.SHEET.getD "")
        (r.COL_CODE.getD ""))).getLast? = some (i, j) →
    ∃ m, find_cell_to_update grid rows = .ok m ∧
      lookupKV m (toString r.index) =
        some (rowcol_to_a1 (i + 1)
          (j + 1 + (lettersToColNum (r.COL_NOTE.getD "") - 1))) := by
  intro h12 hr h1r hkeys hlast
  have hfetched : ∀ x ∈ rows, phase2Eligible x = true →
      routingKey x ∈ fetchedKeys rows := by
    intro x hx h2
    have h1 := h12 x hx h2
    exact List.mem_map_of_mem _ (List.mem_filter.mpr ⟨hx, h1⟩)
  refine ⟨_, find_cell_loop_ok grid (fetchedKeys rows) rows [] hfetched,
    fold_resolve_lookup grid r i j (phase1_implies_phase2 r h1r) hlast
      rows [] hr hkeys⟩

/-- Witness for C6: a two-row batch against `twoMatchGrid`, whose code
column ties at scan rows 0 and 2 for `rowAllRouting`'s lookup code;
the resolved cell is computed from row 2 (the last match) and sits in
note column N — cell N3 under the default column-only grid ranges. -/
theorem dynamic_resolution_last_match_witness :
    (∃ m, find_cell_to_update twoMatchGrid [rowOther, rowAllRouting] =
        .ok m ∧
      lookupKV m (toString rowAllRouting.index) =
        some (rowcol_to_a1 (2 + 1)
          (0 + 1 +
            (lettersToColNum (rowAllRouting.COL_NOTE.getD "") - 1)))) ∧
    toString rowAllRouting.index = "4" ∧
    rowcol_to_a1 (2 + 1)
      (0 + 1 + (lettersToColNum (rowAllRouting.COL_NOTE.getD "") - 1)) =
      "N3" := by
  refine ⟨?_, by decide, by decide⟩
  exact dynamic_resolution_last_match twoMatchGrid
    [rowOther, rowAllRouting] rowAllRouting 2 0 (by decide) (by decide)
    (by decide) (by decide) (by decide)

/-- Counterexample for C8: the claim says only rows whose flag equals
the run marker are written back, on both write-back paths.  For a
priced row with a blank `FILL_IN`, `batch_process` excludes it from
the dynamic-resolution set yet still hands it to the static-column
`RowModel.batch_update`, whose batch contains its four updatable
cells G7/H7/I7/J7 — the row is written despite not carrying the run
marker. -/
theorem static_update_includes_non_run_row :
    (process_row "T" gdW rowNonRun).FILL_IN ≠ some RUN_value ∧
    (batch_process_writes "T" gdW [rowNonRun]).1 = [] ∧
    (batch_process_writes "T" gdW [rowNonRun]).2 =
      [process_row "T" gdW rowNonRun] ∧
    batch_update (batch_process_writes "T" gdW [rowNonRun]).2 =
      [("G7", some "5.0"), ("H7", some "n"), ("I7", some "SGD"),
       ("J7", some "T Cập nhật thành công")] := by
  refine ⟨by decide, by decide, by decide, by decide⟩

/-- C8 (amended): after the pricing loop, only the dynamic-resolution
write set (`to_be_updated_row_models`) is filtered to rows whose
`FILL_IN` equals the run marker; the static-column batch update
receives every fetched row of the chunk — each contributes its
updatable cells (e.g. its price cell in column G) to the write batch
whether or not it carries the run marker. -/
theorem run_filter_amended :
    (∀ (nowStr : String) (gd : List (String × FriElidiasGame))
        (rows : List RowModel) (x : RowModel),
      x ∈ (batch_process_writes nowStr gd rows).1 →
      x.FILL_IN = some RUN_value) ∧
    (∀ (nowStr : String) (gd : List (String × FriElidiasGame))
        (rows : List RowModel) (r : RowModel),
      r ∈ rows →
      process_row nowStr gd r ∈ (batch_process_writes nowStr gd rows).2) ∧
    (∀ (nowStr : String) (gd : List (String × FriElidiasGame))
        (rows : List RowModel) (r : RowModel),
      r ∈ rows →
      ("G" ++ toString (process_row nowStr gd r).index,
        (process_row nowStr gd r).PRICE) ∈
        batch_update (batch_process_writes nowStr gd rows).2) := by
  have hmem : ∀ (l : List RowModel) (x : RowModel)
      (c : String × Option String),
      x ∈ l → c ∈ x.updatableCells → c ∈ batch_update l := by
    intro l
    induction l with
    | nil => intro x c hx; simp at hx
    | cons y ys ih =>
      intro x c hx hc
      have hcons : batch_update (y :: ys) =
          y.updatableCells ++ batch_update ys := rfl
      rw [hcons]
      rcases List.mem_cons.mp hx with h | h
      · subst h; exact List.mem_append_left _ hc
      · exact List.mem_append_right _ (ih x c h hc)
  refine ⟨?_, ?_, ?_⟩
  · intro nowStr gd rows x hx
    simp only [batch_process_writes, List.mem_filter] at hx
    exact of_decide_eq_true hx.2
  · intro nowStr gd rows r hr
    simp only [batch_process_writes]
    exact List.mem_map_of_mem _ hr
  · intro nowStr gd rows r hr
    have h2 : process_row nowStr gd r ∈
        (batch_process_writes nowStr gd rows).2 := by
      simp only [batch_process_writes]
      exact List.mem_map_of_mem _ hr
    exact hmem _ (process_row nowStr gd r) _ h2
      (by simp [RowModel.updatableCells])

/-- Witness for C8 (amended): with the one-game catalog, the run-marked
row lands in the dynamic write set with its marker, and the non-run
row's processed form — price cell G7 included — is in the static
batch. -/
theorem run_filter_amended_witness :
    (process_row "T" gdW rowRun).FILL_IN = some RUN_value ∧
    process_row "T" gdW rowNonRun ∈
      (batch_process_writes "T" gdW [rowNonRun]).2 ∧
    ("G" ++ toString (process_row "T" gdW rowNonRun).index,
      (process_row "T" gdW rowNonRun).PRICE) ∈
      batch_update (batch_process_writes "T" gdW [rowNonRun]).2 :=
  ⟨run_filter_amended.1 "T" gdW [rowRun] (process_row "T" gdW rowRun)
    (by decide),
   run_filter_amended.2.1 "T" gdW [rowNonRun] rowNonRun (by decide),
   run_filter_amended.2.2 "T" gdW [rowNonRun] rowNonRun (by decide)⟩

/-- C9 as it fails on the code: a free-form row missing only the
`fillInFlag` routing field is phase-2 eligible but was never fetched
in phase 1, so `find_cell_to_update` raises `KeyError` instead of
excluding the row, and `batch_update_price` propagates it.  The first
two conjuncts document the eligibility asymmetry that causes the
crash. -/
theorem find_cell_missing_fill_in_raises :
    phase1Eligible rowNoFillIn = false ∧
    phase2Eligible rowNoFillIn = true ∧
    find_cell_to_update emptyGrid [rowNoFillIn] =
      .error "KeyError: sid" ∧
    batch_update_price emptyGrid [rowNoFillIn] =
      .error "KeyError: sid" := by
  refine ⟨by decide, by decide, rfl, rfl⟩

end PriceLog
